import Mathlib

/-!
Verification development for the multi-tenant data-access layer of the
sx_obsidian repository (src/sx_db/repositories.py).

The Python code is shallowly embedded: strings are Lean `String`s
(`List Char` under the hood), the sqlite `videos`/`sources` tables and the
postgres registry/schema catalog are explicit association lists, fallible
operations return `Except RepoErr`, and stateful operations take and return
the explicit state.  Regular expressions of the source are translated into
structural character-list matchers that implement the same leftmost-match
search the Python `re` module performs on the inputs in scope (ASCII; the
source's character classes are explicit ASCII classes).
-/

/-! ### Python string primitives -/

/-- ASCII whitespace recognised by Python's `str.strip()`.  (Python also
strips some further Unicode whitespace; no character of the repository's
identifier alphabets is whitespace of any kind, so the distinction is
inert here.) -/
def isPyWs (c : Char) : Bool :=
  c = ' ' || c = '\t' || c = '\n' || c = '\r' || c = '\x0b' || c = '\x0c'

/-- `str.strip()` on a character list: drop whitespace from both ends. -/
def pyStripList (l : List Char) : List Char :=
  ((l.dropWhile isPyWs).reverse.dropWhile isPyWs).reverse

/-- `str.strip()`. -/
def pyStrip (s : String) : String :=
  String.mk (pyStripList s.data)

/-- `str.lower()` (ASCII). -/
def pyLower (l : List Char) : List Char :=
  l.map Char.toLower

/-- Emptiness of a string, via its character list. -/
def strIsEmpty (s : String) : Bool :=
  s.data.isEmpty

/-- Python `x or d` for strings: `d` when `x` is empty (falsy). -/
def pyOrStr (x d : String) : String :=
  if strIsEmpty x then d else x

/-- Python `payload.get(k) or d`: `d` when the value is absent or falsy. -/
def pyGetOr (x : Option String) (d : String) : String :=
  match x with
  | none => d
  | some s => if strIsEmpty s then d else s

/-- Python `int(payload.get(k) or 0)` on an optional integer. -/
def pyGetOrInt (x : Option Int) : Int :=
  match x with
  | none => 0
  | some n => n

/-! ### Error vocabulary

The spec names the failures `InvalidIdentifier` (a `ValueError` from
`safe_ident`), `SchemaNotMapped` (the `KeyError` of `resolve_schema`),
`SchemaIndexMismatch` (the `RuntimeError` of `_assert_schema_index_guard`)
and the `ValueError` for a payload without an id. -/

inductive RepoErr where
  | invalidIdentifier
  | schemaNotMapped
  | schemaIndexMismatch
  | payloadIdRequired
  deriving DecidableEq, Repr

/-! ### Identifier safety (src/sx_db/repositories.py lines 36-49) -/

/-- Character class `[a-zA-Z0-9._-]` of `sanitize_source_id`'s `re.sub`. -/
def isAllowedSrcChar (c : Char) : Bool :=
  c.isAlpha || c.isDigit || c = '.' || c = '_' || c = '-'

/--
`sanitize_source_id(v, fallback="default")`:

    raw = str(v or "").strip() or str(fallback or "default").strip()
    cleaned = re.sub(r"[^a-zA-Z0-9._-]", "", raw)
    return cleaned or "default"
-/
def sanitize_source_id (v : String) (fallback : String) : String :=
  let raw := if strIsEmpty (pyStrip v)
             then pyStrip (pyOrStr fallback "default")
             else pyStrip v
  let cleaned := String.mk (raw.data.filter isAllowedSrcChar)
  if strIsEmpty cleaned then "default" else cleaned

/-- First-character class of `_SAFE_IDENT = ^[A-Za-z_][A-Za-z0-9_]*$`. -/
def isIdentStart (c : Char) : Bool :=
  c.isAlpha || c = '_'

/-- Body-character class of `_SAFE_IDENT`. -/
def isIdentChar (c : Char) : Bool :=
  c.isAlpha || c.isDigit || c = '_'

/-- `_SAFE_IDENT.match(s)` as a Bool: `^[A-Za-z_][A-Za-z0-9_]*$`.
(`re`'s `$` would also accept a trailing newline, but `safe_ident` only
matches strings that have already been stripped.) -/
def matchesSafeIdent (s : String) : Bool :=
  match s.data with
  | [] => false
  | c :: cs => isIdentStart c && cs.all isIdentChar

/--
`safe_ident(name)`:

    s = str(name or "").strip()
    if not _SAFE_IDENT.match(s): raise ValueError(...)
    return s
-/
def safe_ident (name : String) : Except RepoErr String :=
  let s := pyStrip name
  if matchesSafeIdent s then Except.ok s else Except.error RepoErr.invalidIdentifier

/-! ### Profile-index extraction (lines 52-80)

`_extract_trailing_profile_index` searches `(?:^|[_-])(?:p)?(\d{1,2})$` and
`_extract_schema_profile_index` searches `(?:^|_)p(\d{2})(?:_|$)`, both on
the stripped lowercased input, both returning the captured number when it
is at least 1.  The matchers below perform the same leftmost-position
search with the same alternative/option ordering the `re` engine uses. -/

/-- Numeric value of a digit list. -/
def digitsVal (l : List Char) : Nat :=
  l.foldl (fun acc c => acc * 10 + (c.toNat - 48)) 0

/-- `(\d{1,2})$`: the whole remaining input must be one or two digits. -/
def digits12 (t : List Char) : Option Nat :=
  if (t.length = 1 || t.length = 2) && t.all Char.isDigit then some (digitsVal t) else none

/-- `(?:p)?(\d{1,2})$` at a fixed position: the `p`-consuming branch is
  preferred, backtracking to the `p`-less branch. -/
def tryTail (t : List Char) : Option Nat :=
  match t with
  | 'p' :: rest =>
    (match digits12 rest with
     | some n => some n
     | none => digits12 ('p' :: rest))
  | t => digits12 t

/-- The `[_-]`-prefixed positions of the search, scanned left to right. -/
def searchSep : List Char → Option Nat
  | [] => none
  | c :: rest =>
    match (if c = '_' || c = '-' then tryTail rest else none) with
    | some n => some n
    | none => searchSep rest

/-- `_extract_trailing_profile_index(value)`. -/
def extractTrailingProfileIndex (value : String) : Option Nat :=
  let s := pyLower (pyStripList value.data)
  if s.isEmpty then none
  else
    match (match tryTail s with
           | some n => some n
           | none => searchSep s) with
    | none => none
    | some n => if n ≥ 1 then some n else none

/-- `p(\d{2})(?:_|$)` at a fixed position. -/
def schemaTok : List Char → Option Nat
  | 'p' :: d1 :: d2 :: rest =>
    if d1.isDigit && d2.isDigit && (rest.isEmpty || rest.head? = some '_')
    then some (digitsVal [d1, d2]) else none
  | _ => none

/-- The `_`-prefixed positions of the schema-token search. -/
def schemaScan : List Char → Option Nat
  | [] => none
  | c :: rest =>
    match (if c = '_' then schemaTok rest else none) with
    | some n => some n
    | none => schemaScan rest

/-- `_extract_schema_profile_index(schema_name)`. -/
def extractSchemaProfileIndex (schema_name : String) : Option Nat :=
  let s := pyLower (pyStripList schema_name.data)
  if s.isEmpty then none
  else
    match (match schemaTok s with
           | some n => some n
           | none => schemaScan s) with
    | none => none
    | some n => if n ≥ 1 then some n else none

/-! ### Settings (src/sx_db/settings.py, fields the data layer reads) -/

structure Settings where
  /-- `SX_DEFAULT_SOURCE_ID` -/
  default_source_id : String
  /-- `SX_POSTGRES_SCHEMA_PREFIX` -/
  schema_pref : String
  /-- `SX_POSTGRES_REGISTRY_TABLE` -/
  registry_table : String
  /-- `SX_SCHEMA_INDEX_GUARD` -/
  schema_index_guard : Bool
  /-- `SX_PROFILE_INDEX` -/
  profile_index : String
  deriving DecidableEq, Repr

/-! ### Generic keyed association-list operations

The sqlite tables and the postgres registry/catalog are lists of rows; the
SQL `WHERE key=...` / `ON CONFLICT(key) DO UPDATE` idioms become find /
map-update / upsert on those lists. -/

/-- `SELECT ... WHERE key(r) = k LIMIT 1`. -/
def keyFind {α κ : Type} [DecidableEq κ] (key : α → κ) (k : κ) (l : List α) : Option α :=
  l.find? (fun r => decide (key r = k))

/-- `EXISTS (SELECT 1 WHERE key(r) = k)`. -/
def keyAny {α κ : Type} [DecidableEq κ] (key : α → κ) (k : κ) (l : List α) : Bool :=
  l.any (fun r => decide (key r = k))

/-- `UPDATE ... SET ... WHERE key(r) = k`. -/
def keyUpd {α κ : Type} [DecidableEq κ] (key : α → κ) (k : κ) (f : α → α) (l : List α) : List α :=
  l.map (fun r => if key r = k then f r else r)

/-- `INSERT ... ON CONFLICT(key) DO UPDATE`: update the conflicting rows
when the key is present, otherwise append the fresh row `x`. -/
def keyUpsert {α κ : Type} [DecidableEq κ] (key : α → κ) (k : κ) (f : α → α) (x : α) (l : List α) : List α :=
  if keyAny key k l then keyUpd key k f l else l ++ [x]

/-! ### Embedded-store (sqlite) repository (lines 83-176)

The `videos` table is modelled by the columns `write_item` writes; the
remaining sqlite columns are never touched by the embedded operations in
scope and stay NULL.  `sources` carries the columns of `ensure_source`. -/

structure VideoRow where
  source_id : String
  id : String
  platform : String
  caption : String
  bookmarked : Int
  updated_at : String
  deriving DecidableEq, Repr

structure SourceRow where
  id : String
  label : Option String
  kind : Option String
  description : Option String
  enabled : Int
  is_default : Int
  created_at : String
  updated_at : String
  deriving DecidableEq, Repr

structure SqliteDb where
  videos : List VideoRow
  sources : List SourceRow
  deriving DecidableEq, Repr

/-- The `(source_id, id)` primary key of `videos`. -/
def videoKey (r : VideoRow) : String × String :=
  (r.source_id, r.id)

/-- `ON CONFLICT(source_id, id) DO UPDATE SET platform, caption,
bookmarked, updated_at = excluded.*`. -/
def videoUpd (new : VideoRow) (old : VideoRow) : VideoRow :=
  { old with platform := new.platform, caption := new.caption,
             bookmarked := new.bookmarked, updated_at := new.updated_at }

/-- `db.ensure_source(conn, source_id, label=..., ...)` (src/sx_db/db.py
lines 518-543): strip-or-default the id, then upsert into `sources`. -/
def ensure_source (db : SqliteDb) (source_id : String) (label kind description : Option String)
    (enabled : Bool) (now : String) : SqliteDb :=
  let sid := pyOrStr (pyStrip source_id) "default"
  let fresh : SourceRow :=
    ⟨sid, label, kind, description, if enabled then 1 else 0, 0, now, now⟩
  let upd := fun (r : SourceRow) =>
    { r with label := match label with | some v => some v | none => r.label,
             kind := match kind with | some v => some v | none => r.kind,
             description := match description with | some v => some v | none => r.description,
             enabled := if enabled then 1 else 0,
             updated_at := now }
  { db with sources := keyUpsert SourceRow.id sid upd fresh db.sources }

/-- The `write_item` payload dict: keys the code reads. -/
structure Payload where
  id : Option String
  platform : Option String
  caption : Option String
  bookmarked : Option Int
  deriving DecidableEq, Repr

/-- Return dict of `write_item`. -/
structure WriteResp where
  ok : Bool
  id : String
  source_id : String
  updated_at : String
  deriving DecidableEq, Repr

/-- Return dict of `init_schema` (sqlite). -/
structure InitResp where
  ok : Bool
  source_id : String
  backend : String
  deriving DecidableEq, Repr

/-- Return dict of `get_health` (sqlite). -/
structure HealthResp where
  ok : Bool
  backend : String
  active : Bool
  source_id : String
  deriving DecidableEq, Repr

namespace SqliteRepository

/-- `SqliteRepository.init_schema` (lines 94-99). -/
def init_schema (st : Settings) (db : SqliteDb) (source_id : String) (now : String) :
    SqliteDb × InitResp :=
  let sid := sanitize_source_id source_id st.default_source_id
  (ensure_source db sid (some sid) none none true now, ⟨true, sid, "sqlite"⟩)

/-- `SqliteRepository.get_health` (lines 101-111). -/
def get_health (st : Settings) (db : SqliteDb) (source_id : String) (now : String) :
    SqliteDb × HealthResp :=
  let sid := sanitize_source_id source_id st.default_source_id
  (ensure_source db sid (some sid) none none true now, ⟨true, "sqlite", true, sid⟩)

/-- `SqliteRepository.get_item` (lines 142-146):
`SELECT * FROM videos WHERE source_id=? AND id=?`. -/
def get_item (st : Settings) (db : SqliteDb) (source_id item_id : String) : Option VideoRow :=
  let sid := sanitize_source_id source_id st.default_source_id
  keyFind videoKey (sid, item_id) db.videos

/-- `SqliteRepository.write_item` (lines 148-176). -/
def write_item (st : Settings) (db : SqliteDb) (source_id : String) (payload : Payload)
    (now : String) : Except RepoErr (SqliteDb × WriteResp) :=
  let sid := sanitize_source_id source_id st.default_source_id
  let item_id := pyStrip (pyGetOr payload.id "")
  if strIsEmpty item_id then Except.error RepoErr.payloadIdRequired
  else
    let row : VideoRow :=
      ⟨sid, item_id, pyGetOr payload.platform "tiktok", pyGetOr payload.caption "",
       pyGetOrInt payload.bookmarked, now⟩
    Except.ok
      ({ db with videos := keyUpsert videoKey (sid, item_id) (videoUpd row) row db.videos },
       ⟨true, item_id, sid, now⟩)

/-- Descending insertion by `updated_at` (sqlite `ORDER BY updated_at DESC`
on the TEXT column; byte order and lexicographic order agree on the
ASCII timestamps the writer produces). -/
def insertDesc (r : VideoRow) : List VideoRow → List VideoRow
  | [] => [r]
  | x :: xs =>
    if compare x.updated_at r.updated_at = Ordering.lt then r :: x :: xs else x :: insertDesc r xs

/-- Sort rows by `updated_at` descending. -/
def sortByUpdatedDesc (l : List VideoRow) : List VideoRow :=
  l.foldr insertDesc []

/-- `SqliteRepository.list_items` (lines 125-140): filter by tenant,
order by `updated_at DESC`, apply `LIMIT ? OFFSET ?`, report the total. -/
def list_items (st : Settings) (db : SqliteDb) (source_id : String) (limit offset : Nat) :
    List VideoRow × Nat × Nat × Nat :=
  let sid := sanitize_source_id source_id st.default_source_id
  let rows := db.videos.filter (fun r => decide (r.source_id = sid))
  (((sortByUpdatedDesc rows).drop offset).take limit, rows.length, limit, offset)

end SqliteRepository

/-! ### Query compatibility shim (lines 179-281) -/

/-- A row as the relational driver returns it (name/value pairs). -/
def PgRow : Type := List (String × String)

/-- `_FakeCursor` (lines 179-188): `fetchone()` returns `_one`,
`fetchall()` returns `_many or []`. -/
structure FakeCursor where
  one : Option PgRow
  many : Option (List PgRow)

def FakeCursor.fetchone (c : FakeCursor) : Option PgRow :=
  c.one

def FakeCursor.fetchall (c : FakeCursor) : List PgRow :=
  match c.many with
  | none => []
  | some l => l

/-- Parameters handed to `CompatConnection.execute`: a positional sequence
or a named mapping, as in the Python driver API. -/
inductive ShimParams where
  | positional (vals : List String)
  | named (vals : List (String × String))

/-- `[A-Za-z_][A-Za-z0-9_]*` after a `:`—the named-placeholder token.
Returns the token and the remaining characters. -/
def takeIdentTok : List Char → Option (List Char × List Char)
  | [] => none
  | c :: rest =>
    if isIdentStart c then some (c :: rest.takeWhile isIdentChar, rest.dropWhile isIdentChar)
    else none

/-- `re.sub(r"(?<!:):([A-Za-z_][A-Za-z0-9_]*)", r"%(\1)s", s)`: rewrite
`:name` (not preceded by another `:`) to `%(name)s`.  `prev` is the
character before the scan position; `fuel` bounds the recursion by the
input length. -/
def adaptNamedAux : Nat → Option Char → List Char → List Char
  | 0, _, l => l
  | fuel + 1, prev, l =>
    match l with
    | [] => []
    | ':' :: rest =>
      if prev ≠ some ':' then
        match takeIdentTok rest with
        | some (name, rest') =>
          '%' :: '(' :: (name ++ ')' :: 's' :: adaptNamedAux fuel (some 's') rest')
        | none => ':' :: adaptNamedAux fuel (some ':') rest
      else ':' :: adaptNamedAux fuel (some ':') rest
    | c :: rest => c :: adaptNamedAux fuel (some c) rest

/-- `CompatConnection._adapt_sql` (lines 248-255): `?` → `%s` for
positional parameters, `:name` → `%(name)s` for a mapping. -/
def adaptSql (sql : String) (params : ShimParams) : String :=
  match params with
  | ShimParams.named _ => String.mk (adaptNamedAux sql.data.length none sql.data)
  | ShimParams.positional _ => sql.replace "?" "%s"

/-- Python's `needle in hay` substring test. -/
def containsSubList (needle : List Char) : List Char → Bool
  | [] => needle.isEmpty
  | c :: cs => needle.isPrefixOf (c :: cs) || containsSubList needle cs

/-- `"needle" in sql` on strings. -/
def containsSub (needle hay : String) : Bool :=
  containsSubList needle.data hay.data

/-- What `CompatConnection.execute` does with a statement: either the
sqlite-master/videos_fts catalog probe is short-circuited to an empty
`_FakeCursor` (no statement reaches psycopg), or the adapted statement and
the untouched parameters are forwarded to the driver. -/
inductive ExecOutcome where
  | shortCircuit (cur : FakeCursor)
  | forwarded (adapted : String) (params : ShimParams)

/-- `CompatConnection.execute` (lines 257-262). -/
def CompatConnection.execute (sql : String) (params : ShimParams) : ExecOutcome :=
  if containsSub "sqlite_master" sql && containsSub "videos_fts" sql then
    ExecOutcome.shortCircuit ⟨none, some []⟩
  else
    ExecOutcome.forwarded (adaptSql sql params) params

/-! ### Relational-store (postgres) repository (lines 283-767)

State: the `public.sources` table, the `public.<registry_table>` mapping
table, and the per-schema catalog (which tables exist in which schema,
with which columns).  Indexes and the two NOT VALID foreign-key
constraints of `_create_schema_objects` are row-free catalog objects that
no probe in scope reads; they are not tracked. -/

/-- A table in a tenant schema: its name and column names. -/
structure TableDef where
  name : String
  columns : List String
  deriving DecidableEq, Repr

/-- A row of `public.<registry_table>`. -/
structure RegEntry where
  source_id : String
  schema_name : String
  created_at : String
  updated_at : String
  deriving DecidableEq, Repr

/-- The relational-server state visible to the repository. -/
structure PgState where
  /-- whether `_ensure_global_tables` has created the public tables -/
  globals_ready : Bool
  /-- rows of `public.<registry_table>` -/
  registry : List RegEntry
  /-- rows of `public.sources` -/
  sources : List SourceRow
  /-- the schema catalog: schema name ↦ its tables -/
  schemas : List (String × List TableDef)
  deriving DecidableEq, Repr

/-- The tables `_create_schema_objects` provisions (lines 374-558), with
the column lists of their `CREATE TABLE` statements. -/
def canonicalTables : List TableDef :=
  [⟨"videos",
    ["source_id", "id", "platform", "author_id", "author_unique_id", "author_name",
     "followers", "hearts", "videos_count", "signature", "is_private", "caption",
     "bookmarked", "bookmark_timestamp", "video_path", "cover_path", "csv_row_hash",
     "updated_at"]⟩,
   ⟨"user_meta",
    ["source_id", "video_id", "rating", "status", "statuses", "tags", "notes",
     "product_link", "author_links", "platform_targets", "workflow_log", "post_url",
     "published_time", "updated_at"]⟩,
   ⟨"video_notes",
    ["source_id", "video_id", "markdown", "template_version", "updated_at"]⟩,
   ⟨"csv_consolidated_raw",
    ["source_id", "video_id", "row_json", "csv_row_hash", "imported_at"]⟩,
   ⟨"csv_authors_raw",
    ["source_id", "author_id", "row_json", "imported_at"]⟩,
   ⟨"csv_bookmarks_raw",
    ["source_id", "video_id", "row_json", "imported_at"]⟩,
   ⟨"scheduling_artifacts",
    ["source_id", "video_id", "platform", "artifact_json", "r2_media_url", "status",
     "created_at", "updated_at"]⟩,
   ⟨"job_queue",
    ["id", "source_id", "video_id", "platform", "action", "status", "scheduled_time",
     "execute_after", "result_json", "error_message", "retry_count", "created_at",
     "updated_at"]⟩]

/-- `CREATE TABLE IF NOT EXISTS`: add the table only when no table of that
name exists in the schema. -/
def ensureTable (tabs : List TableDef) (t : TableDef) : List TableDef :=
  if tabs.any (fun u => decide (u.name = t.name)) then tabs else tabs ++ [t]

namespace PostgresRepository

/-- The `.replace(".", "_").replace("-", "_")` folding of
`schema_name_for_source`, per character. -/
def foldSchemaChar (c : Char) : Char :=
  if c = '.' then '_' else if c = '-' then '_' else c

/-- `PostgresRepository.schema_name_for_source` (lines 306-309), with the
`safe_ident(str(settings.SX_POSTGRES_SCHEMA_PREFIX or "sx"))` of
`__init__` (line 289) applied to the prefix first. -/
def schema_name_for_source (st : Settings) (source_id : String) : Except RepoErr String :=
  match safe_ident (pyOrStr st.schema_pref "sx") with
  | Except.error e => Except.error e
  | Except.ok pre =>
    let sid := sanitize_source_id source_id st.default_source_id
    let raw := String.mk ((pre.data ++ '_' :: sid.data).map foldSchemaChar)
    safe_ident raw

/-- `PostgresRepository._assert_schema_index_guard` (lines 311-342). -/
def assert_schema_index_guard (st : Settings) (source_id schema_name : String) :
    Except RepoErr Unit :=
  if st.schema_index_guard = false then Except.ok ()
  else
    let sid := sanitize_source_id source_id st.default_source_id
    match safe_ident schema_name with
    | Except.error e => Except.error e
    | Except.ok schema =>
      match extractSchemaProfileIndex schema with
      | none => Except.ok ()
      | some schemaIdx =>
        let sourceIdx := extractTrailingProfileIndex sid
        let profileIdx := extractTrailingProfileIndex st.profile_index
        if sourceIdx ≠ none ∧ profileIdx ≠ none ∧ sourceIdx ≠ profileIdx then
          Except.error RepoErr.schemaIndexMismatch
        else
          match (match sourceIdx with | some a => some a | none => profileIdx) with
          | none => Except.ok ()
          | some expected =>
            if schemaIdx ≠ expected then Except.error RepoErr.schemaIndexMismatch
            else Except.ok ()

/-- `PostgresRepository._create_schema_objects` (lines 374-558):
`CREATE SCHEMA IF NOT EXISTS` followed by `CREATE TABLE IF NOT EXISTS` for
each canonical table (plus row-free indexes/constraints, untracked). -/
def create_schema_objects (schemas : List (String × List TableDef)) (schema : String) :
    Except RepoErr (List (String × List TableDef)) :=
  match safe_ident schema with
  | Except.error e => Except.error e
  | Except.ok s =>
    let tabs := ((keyFind Prod.fst s schemas).map Prod.snd).getD []
    let tabs' := canonicalTables.foldl ensureTable tabs
    Except.ok (keyUpsert Prod.fst s (fun p => (p.1, tabs')) (s, tabs') schemas)

/-- `PostgresRepository._schema_has_required_layout` (lines 560-595). -/
def schema_has_required_layout (schemas : List (String × List TableDef)) (schema : String) :
    Except RepoErr Bool :=
  match safe_ident schema with
  | Except.error e => Except.error e
  | Except.ok s =>
    let tabs := ((keyFind Prod.fst s schemas).map Prod.snd).getD []
    let cols := ((keyFind TableDef.name "videos" tabs).map TableDef.columns).getD []
    if cols.isEmpty then Except.ok true
    else if ¬ (["source_id", "id", "author_unique_id", "updated_at"].all
                (fun c => cols.contains c)) then Except.ok false
    else Except.ok (tabs.any (fun t => decide (t.name = "csv_authors_raw")))

/-- The `UPDATE public.<registry> SET schema_name=%s, updated_at=%s WHERE
source_id=%s` of the legacy remap (lines 617-624). -/
def registryRemap (reg : List RegEntry) (sid schema now : String) : List RegEntry :=
  keyUpd RegEntry.source_id sid
    (fun r => { r with schema_name := schema, updated_at := now }) reg

/-- The registry upsert of first-time provisioning (lines 640-649):
`ON CONFLICT(source_id) DO UPDATE SET schema_name, updated_at`. -/
def registryUpsert (reg : List RegEntry) (sid schema now : String) : List RegEntry :=
  keyUpsert RegEntry.source_id sid
    (fun r => { r with schema_name := schema, updated_at := now })
    ⟨sid, schema, now, now⟩ reg

/-- The `public.sources` upsert of first-time provisioning (lines
650-657): insert `(sid, sid, 1, 0, now, now)`, `ON CONFLICT(id) DO UPDATE
SET updated_at`. -/
def sourcesUpsert (sources : List SourceRow) (sid now : String) : List SourceRow :=
  keyUpsert SourceRow.id sid
    (fun r => { r with updated_at := now })
    ⟨sid, some sid, none, none, 1, 0, now, now⟩ sources

/-- The no-usable-mapping tail of `resolve_schema` (lines 635-663): fail
when not allowed to create, otherwise upsert registry and source rows,
provision the canonical schema, re-check the guard, return the name. -/
def resolve_schema_missing (st : Settings) (pg : PgState) (sid canonical : String)
    (create_if_missing : Bool) (now : String) : PgState × Except RepoErr String :=
  if create_if_missing = false then (pg, Except.error RepoErr.schemaNotMapped)
  else
    let pg := { pg with registry := registryUpsert pg.registry sid canonical now,
                        sources := sourcesUpsert pg.sources sid now }
    match create_schema_objects pg.schemas canonical with
    | Except.error e => (pg, Except.error e)
    | Except.ok schemas' =>
      let pg := { pg with schemas := schemas' }
      match assert_schema_index_guard st sid canonical with
      | Except.error e => (pg, Except.error e)
      | Except.ok _ => (pg, Except.ok canonical)

/-- The mapped-row branch of `resolve_schema` (lines 608-633). -/
def resolve_schema_mapped (st : Settings) (pg : PgState) (sid canonical mapped : String)
    (create_if_missing : Bool) (now : String) : PgState × Except RepoErr String :=
  match safe_ident mapped with
  | Except.error e => (pg, Except.error e)
  | Except.ok schema =>
    if create_if_missing then
      match schema_has_required_layout pg.schemas schema with
      | Except.error e => (pg, Except.error e)
      | Except.ok layoutOk =>
        if layoutOk = false then
          -- legacy/foreign layout: remap to the canonical schema and provision it
          let pg := { pg with registry := registryRemap pg.registry sid canonical now }
          match create_schema_objects pg.schemas canonical with
          | Except.error e => (pg, Except.error e)
          | Except.ok schemas' =>
            let pg := { pg with schemas := schemas' }
            match assert_schema_index_guard st sid canonical with
            | Except.error e => (pg, Except.error e)
            | Except.ok _ => (pg, Except.ok canonical)
        else
          match create_schema_objects pg.schemas schema with
          | Except.error e => (pg, Except.error e)
          | Except.ok schemas' =>
            let pg := { pg with schemas := schemas' }
            match assert_schema_index_guard st sid schema with
            | Except.error e => (pg, Except.error e)
            | Except.ok _ => (pg, Except.ok schema)
    else
      match assert_schema_index_guard st sid schema with
      | Except.error e => (pg, Except.error e)
      | Except.ok _ => (pg, Except.ok schema)

/-- `PostgresRepository.resolve_schema` (lines 597-663).  The result pair
is the server state after the call (committed effects) and the returned
schema name or the raised error. -/
def resolve_schema (st : Settings) (pg : PgState) (source_id : String)
    (create_if_missing : Bool) (now : String) : PgState × Except RepoErr String :=
  let sid := sanitize_source_id source_id st.default_source_id
  match schema_name_for_source st sid with
  | Except.error e => (pg, Except.error e)
  | Except.ok canonical =>
    let pg := { pg with globals_ready := true }
    match keyFind RegEntry.source_id sid pg.registry with
    | some row =>
      if strIsEmpty row.schema_name then
        resolve_schema_missing st pg sid canonical create_if_missing now
      else
        resolve_schema_mapped st pg sid canonical row.schema_name create_if_missing now
    | none => resolve_schema_missing st pg sid canonical create_if_missing now

/-- `PostgresRepository.init_schema` (lines 665-668). -/
def init_schema (st : Settings) (pg : PgState) (source_id : String) (now : String) :
    PgState × Except RepoErr (String × String) :=
  let sid := sanitize_source_id source_id st.default_source_id
  match resolve_schema st pg sid true now with
  | (pg', Except.error e) => (pg', Except.error e)
  | (pg', Except.ok schema) => (pg', Except.ok (sid, schema))

/-- `PostgresRepository.connection_for_source` (lines 670-677): resolve
without creating, re-check the guard, and open a connection whose
`search_path` starts at the tenant schema (we return that schema name). -/
def connection_for_source (st : Settings) (pg : PgState) (source_id : String) (now : String) :
    PgState × Except RepoErr String :=
  let sid := sanitize_source_id source_id st.default_source_id
  match resolve_schema st pg sid false now with
  | (pg', Except.error e) => (pg', Except.error e)
  | (pg', Except.ok schema) =>
    match assert_schema_index_guard st sid schema with
    | Except.error e => (pg', Except.error e)
    | Except.ok _ => (pg', Except.ok schema)

/-- `PostgresRepository.get_health` (lines 679-689). -/
def get_health (st : Settings) (pg : PgState) (source_id : String) (now : String) :
    PgState × Except RepoErr (String × String) :=
  let sid := sanitize_source_id source_id st.default_source_id
  match resolve_schema st pg sid false now with
  | (pg', Except.error e) => (pg', Except.error e)
  | (pg', Except.ok schema) => (pg', Except.ok (sid, schema))

end PostgresRepository

/-! ## Helper lemmas -/

theorem ws_cases {c : Char} (h : isPyWs c = true) :
    c = ' ' ∨ c = '\t' ∨ c = '\n' ∨ c = '\r' ∨ c = '\x0b' ∨ c = '\x0c' := by
  simp [isPyWs] at h
  tauto

theorem allowed_not_ws {c : Char} (h : isAllowedSrcChar c = true) : isPyWs c = false := by
  cases hw : isPyWs c with
  | false => rfl
  | true =>
    exfalso
    rcases ws_cases hw with h' | h' | h' | h' | h' | h' <;>
      (subst h'; exact absurd h (by decide))

theorem identChar_not_ws {c : Char} (h : isIdentChar c = true) : isPyWs c = false := by
  cases hw : isPyWs c with
  | false => rfl
  | true =>
    exfalso
    rcases ws_cases hw with h' | h' | h' | h' | h' | h' <;>
      (subst h'; exact absurd h (by decide))

theorem identStart_not_ws {c : Char} (h : isIdentStart c = true) : isPyWs c = false := by
  cases hw : isPyWs c with
  | false => rfl
  | true =>
    exfalso
    rcases ws_cases hw with h' | h' | h' | h' | h' | h' <;>
      (subst h'; exact absurd h (by decide))

theorem dropWhile_eq_self_of_none {p : Char → Bool} {l : List Char}
    (h : ∀ c ∈ l, p c = false) : l.dropWhile p = l := by
  cases l with
  | nil => rfl
  | cons a l => simp [List.dropWhile, h a (by simp)]

theorem pyStripList_eq_self {l : List Char} (h : ∀ c ∈ l, isPyWs c = false) :
    pyStripList l = l := by
  unfold pyStripList
  rw [dropWhile_eq_self_of_none h, dropWhile_eq_self_of_none, List.reverse_reverse]
  intro c hc
  exact h c (List.mem_reverse.mp hc)

theorem string_mk_data (s : String) : String.mk s.data = s := rfl

theorem pyStrip_eq_self {s : String} (h : ∀ c ∈ s.data, isPyWs c = false) :
    pyStrip s = s := by
  unfold pyStrip
  rw [pyStripList_eq_self h, string_mk_data]

theorem mem_sanitize_allowed {v f : String} {c : Char}
    (h : c ∈ (sanitize_source_id v f).data) : isAllowedSrcChar c = true := by
  unfold sanitize_source_id at h
  set raw := if strIsEmpty (pyStrip v) then pyStrip (pyOrStr f "default") else pyStrip v with hraw
  by_cases he : strIsEmpty (String.mk (raw.data.filter isAllowedSrcChar)) = true
  · simp only [he, if_pos] at h
    have : c ∈ ("default" : String).data := h
    have hall : ("default" : String).data.all isAllowedSrcChar = true := by decide
    exact List.all_eq_true.mp hall c this
  · simp only [he, if_neg, Bool.not_eq_true] at h
    have h' : c ∈ raw.data.filter isAllowedSrcChar := h
    exact List.of_mem_filter h'

theorem sanitize_ne_empty (v f : String) : (sanitize_source_id v f).data ≠ [] := by
  unfold sanitize_source_id
  set raw := if strIsEmpty (pyStrip v) then pyStrip (pyOrStr f "default") else pyStrip v with hraw
  by_cases he : strIsEmpty (String.mk (raw.data.filter isAllowedSrcChar)) = true
  · simp only [he, if_pos]
    decide
  · simp only [he, if_neg, Bool.not_eq_true]
    intro hnil
    apply he
    unfold strIsEmpty
    simp [hnil]

theorem sanitize_fixpoint {y : String} (f : String)
    (hall : ∀ c ∈ y.data, isAllowedSrcChar c = true) (hne : y.data ≠ []) :
    sanitize_source_id y f = y := by
  have h1 : pyStrip y = y := pyStrip_eq_self (fun c hc => allowed_not_ws (hall c hc))
  have h2 : strIsEmpty y = false := by
    unfold strIsEmpty
    simp [hne]
  unfold sanitize_source_id
  rw [h1, h2]
  simp only [Bool.false_eq_true, if_false]
  rw [List.filter_eq_self.mpr hall, string_mk_data, h2]
  simp

theorem sanitize_idem (v f : String) :
    sanitize_source_id (sanitize_source_id v f) f = sanitize_source_id v f :=
  sanitize_fixpoint f (fun _ hc => mem_sanitize_allowed hc) (sanitize_ne_empty v f)

theorem matches_strip_eq {s : String} (h : matchesSafeIdent s = true) : pyStrip s = s := by
  apply pyStrip_eq_self
  intro c hc
  unfold matchesSafeIdent at h
  cases hd : s.data with
  | nil => rw [hd] at hc; cases hc
  | cons a cs =>
    rw [hd] at h hc
    simp only [Bool.and_eq_true] at h
    rcases List.mem_cons.mp hc with rfl | hmem
    · exact identStart_not_ws h.1
    · exact identChar_not_ws (List.all_eq_true.mp h.2 c hmem)

theorem safe_ident_of_matches {s : String} (h : matchesSafeIdent s = true) :
    safe_ident s = Except.ok s := by
  unfold safe_ident
  rw [matches_strip_eq h, if_pos h]

theorem safe_ident_ok_inv {name out : String} (h : safe_ident name = Except.ok out) :
    out = pyStrip name ∧ matchesSafeIdent out = true := by
  unfold safe_ident at h
  by_cases hm : matchesSafeIdent (pyStrip name) = true
  · rw [if_pos hm] at h
    cases h
    exact ⟨rfl, hm⟩
  · rw [if_neg hm] at h
    cases h

/-! Generic lemmas about `keyFind` / `keyUpd` / `keyUpsert`. -/

theorem keyFind_keyUpd_same {α κ : Type} [DecidableEq κ] (key : α → κ) (k : κ) (f : α → α)
    (l : List α) (hf : ∀ r, key (f r) = key r) :
    keyFind key k (keyUpd key k f l) = (keyFind key k l).map f := by
  unfold keyUpd keyFind
  induction l with
  | nil => rfl
  | cons a l ih =>
    rw [List.map_cons]
    by_cases ha : key a = k
    · rw [if_pos ha]
      rw [List.find?_cons_of_pos _ (by simp [hf a, ha]), List.find?_cons_of_pos _ (by simp [ha])]
      rfl
    · rw [if_neg ha]
      rw [List.find?_cons_of_neg _ (by simp [ha]), List.find?_cons_of_neg _ (by simp [ha])]
      exact ih

theorem keyFind_keyUpd_ne {α κ : Type} [DecidableEq κ] (key : α → κ) {k k' : κ} (f : α → α)
    (l : List α) (hf : ∀ r, key (f r) = key r) (hne : k' ≠ k) :
    keyFind key k' (keyUpd key k f l) = keyFind key k' l := by
  unfold keyUpd keyFind
  induction l with
  | nil => rfl
  | cons a l ih =>
    rw [List.map_cons]
    by_cases ha : key a = k
    · have h1 : ¬ key (f a) = k' := by
        rw [hf a, ha]
        exact fun hh => hne hh.symm
      have h2 : ¬ key a = k' := by
        rw [ha]
        exact fun hh => hne hh.symm
      rw [if_pos ha]
      rw [List.find?_cons_of_neg _ (by simp [h1]), List.find?_cons_of_neg _ (by simp [h2])]
      exact ih
    · rw [if_neg ha]
      by_cases hb : key a = k'
      · rw [List.find?_cons_of_pos _ (by simp [hb]), List.find?_cons_of_pos _ (by simp [hb])]
      · rw [List.find?_cons_of_neg _ (by simp [hb]), List.find?_cons_of_neg _ (by simp [hb])]
        exact ih

theorem keyFind_append_right {α κ : Type} [DecidableEq κ] (key : α → κ) (k : κ)
    (l : List α) (x : α) (hnone : keyFind key k l = none) :
    keyFind key k (l ++ [x]) = if key x = k then some x else none := by
  unfold keyFind at hnone ⊢
  induction l with
  | nil =>
    by_cases hx : key x = k
    · rw [List.nil_append, List.find?_cons_of_pos _ (by simp [hx]), if_pos hx]
    · rw [List.nil_append, List.find?_cons_of_neg _ (by simp [hx]), if_neg hx]
      rfl
  | cons a l ih =>
    by_cases ha : key a = k
    · rw [List.find?_cons_of_pos _ (by simp [ha])] at hnone
      cases hnone
    · rw [List.find?_cons_of_neg _ (by simp [ha])] at hnone
      rw [List.cons_append, List.find?_cons_of_neg _ (by simp [ha])]
      exact ih hnone

theorem keyFind_append_single_ne {α κ : Type} [DecidableEq κ] (key : α → κ) {k' : κ}
    (l : List α) (x : α) (hxk : ¬ key x = k') :
    keyFind key k' (l ++ [x]) = keyFind key k' l := by
  unfold keyFind
  induction l with
  | nil =>
    rw [List.nil_append, List.find?_cons_of_neg _ (by simp [hxk])]
  | cons a l ih =>
    by_cases hb : key a = k'
    · rw [List.cons_append, List.find?_cons_of_pos _ (by simp [hb]),
          List.find?_cons_of_pos _ (by simp [hb])]
    · rw [List.cons_append, List.find?_cons_of_neg _ (by simp [hb]),
          List.find?_cons_of_neg _ (by simp [hb])]
      exact ih

theorem keyAny_iff_keyFind {α κ : Type} [DecidableEq κ] (key : α → κ) (k : κ) (l : List α) :
    keyAny key k l = true ↔ keyFind key k l ≠ none := by
  unfold keyAny keyFind
  rw [List.any_eq_true]
  constructor
  · rintro ⟨r, hr, hkr⟩
    intro hnone
    exact (List.find?_eq_none.mp hnone r hr) hkr
  · intro hne
    cases hfind : List.find? (fun r => decide (key r = k)) l with
    | none => exact absurd hfind hne
    | some r =>
      refine ⟨r, List.mem_of_find?_eq_some hfind, ?_⟩
      have h3 := List.find?_some hfind
      simpa using h3

theorem keyFind_keyUpsert_pred {α κ : Type} [DecidableEq κ] (key : α → κ) (k : κ) (f : α → α)
    (x : α) (l : List α) (hf : ∀ r, key (f r) = key r) (hx : key x = k)
    (P : α → Prop) (hPx : P x) (hPf : ∀ r, P (f r)) :
    ∃ r, keyFind key k (keyUpsert key k f x l) = some r ∧ P r := by
  unfold keyUpsert
  by_cases hany : keyAny key k l = true
  · rw [if_pos hany]
    rw [keyFind_keyUpd_same key k f l hf]
    have hne := (keyAny_iff_keyFind key k l).mp hany
    cases hfind : keyFind key k l with
    | none => exact absurd hfind hne
    | some r => exact ⟨f r, by simp [hfind], hPf r⟩
  · rw [if_neg hany]
    have hnone : keyFind key k l = none := by
      cases hfind : keyFind key k l with
      | none => rfl
      | some r =>
        exact absurd ((keyAny_iff_keyFind key k l).mpr (by simp [hfind])) hany
    rw [keyFind_append_right key k l x hnone, if_pos hx]
    exact ⟨x, rfl, hPx⟩

theorem keyFind_keyUpsert_ne {α κ : Type} [DecidableEq κ] (key : α → κ) {k k' : κ} (f : α → α)
    (x : α) (l : List α) (hf : ∀ r, key (f r) = key r) (hx : key x = k) (hne : k' ≠ k) :
    keyFind key k' (keyUpsert key k f x l) = keyFind key k' l := by
  unfold keyUpsert
  by_cases hany : keyAny key k l = true
  · rw [if_pos hany]
    exact keyFind_keyUpd_ne key f l hf hne
  · rw [if_neg hany]
    exact keyFind_append_single_ne key l x (by rw [hx]; exact fun hh => hne hh.symm)

/-! Lemmas about `ensureTable` and provisioning. -/

theorem ensureTable_any_name (tabs : List TableDef) (t : TableDef) :
    (ensureTable tabs t).any (fun u => decide (u.name = t.name)) = true := by
  unfold ensureTable
  by_cases h : tabs.any (fun u => decide (u.name = t.name)) = true
  · rw [if_pos h]
    exact h
  · rw [if_neg h, List.any_append]
    simp

theorem ensureTable_any_mono (tabs : List TableDef) (t : TableDef) (p : TableDef → Bool)
    (h : tabs.any p = true) : (ensureTable tabs t).any p = true := by
  unfold ensureTable
  by_cases hc : tabs.any (fun u => decide (u.name = t.name)) = true
  · rw [if_pos hc]
    exact h
  · rw [if_neg hc, List.any_append, h]
    rfl

theorem foldl_ensureTable_mono (L : List TableDef) (init : List TableDef) (p : TableDef → Bool)
    (h : init.any p = true) : (L.foldl ensureTable init).any p = true := by
  induction L generalizing init with
  | nil => exact h
  | cons a L ih => exact ih (ensureTable init a) (ensureTable_any_mono init a p h)

theorem foldl_ensureTable_present (L : List TableDef) (init : List TableDef) (t : TableDef)
    (ht : t ∈ L) :
    (L.foldl ensureTable init).any (fun u => decide (u.name = t.name)) = true := by
  induction L generalizing init with
  | nil => cases ht
  | cons a L ih =>
    rcases List.mem_cons.mp ht with rfl | hmem
    · exact foldl_ensureTable_mono L (ensureTable init t) _ (ensureTable_any_name init t)
    · exact ih (ensureTable init a) hmem

/-! Character lemmas for schema-name folding. -/

theorem identStart_fold_eq {c : Char} (h : isIdentStart c = true) :
    PostgresRepository.foldSchemaChar c = c := by
  unfold PostgresRepository.foldSchemaChar
  by_cases h1 : c = '.'
  · subst h1
    exact absurd h (by decide)
  · by_cases h2 : c = '-'
    · subst h2
      exact absurd h (by decide)
    · rw [if_neg h1, if_neg h2]

theorem identChar_fold_eq {c : Char} (h : isIdentChar c = true) :
    PostgresRepository.foldSchemaChar c = c := by
  unfold PostgresRepository.foldSchemaChar
  by_cases h1 : c = '.'
  · subst h1
    exact absurd h (by decide)
  · by_cases h2 : c = '-'
    · subst h2
      exact absurd h (by decide)
    · rw [if_neg h1, if_neg h2]

theorem allowed_fold_identChar {c : Char} (h : isAllowedSrcChar c = true) :
    isIdentChar (PostgresRepository.foldSchemaChar c) = true := by
  unfold PostgresRepository.foldSchemaChar
  by_cases h1 : c = '.'
  · rw [if_pos h1]
    decide
  · by_cases h2 : c = '-'
    · rw [if_neg h1, if_pos h2]
      decide
    · rw [if_neg h1, if_neg h2]
      simp only [isAllowedSrcChar, Bool.or_eq_true, decide_eq_true_eq] at h
      simp only [isIdentChar, Bool.or_eq_true, decide_eq_true_eq]
      tauto

/-! Miscellaneous string lemmas. -/

theorem strIsEmpty_eq_empty {s : String} (h : strIsEmpty s = true) : s = "" := by
  unfold strIsEmpty at h
  cases s with
  | mk data =>
    simp only [List.isEmpty_eq_true] at h
    rw [h]

theorem pyGetOr_some_self (a : String) : pyGetOr (some a) "" = a := by
  show (if strIsEmpty a = true then "" else a) = a
  by_cases h : strIsEmpty a = true
  · rw [if_pos h, strIsEmpty_eq_empty h]
  · rw [if_neg h]

theorem str_ne_of_data_ne {s : String} (h : s.data ≠ []) : s ≠ "" := by
  intro hs
  apply h
  rw [hs]

/-! ## Claim theorems -/

/-- C8: normalization is idempotent — for every input `x` and fallback `f`,
`sanitize_source_id (sanitize_source_id x f) f = sanitize_source_id x f`
(the spec's `normalize_tenant_id` is `sanitize_source_id`). -/
theorem C8_normalize_idempotent (x f : String) :
    sanitize_source_id (sanitize_source_id x f) f = sanitize_source_id x f :=
  sanitize_idem x f

/-- C7 counterexample: the claim says that when the stripped input is
non-blank but cleaning removes every character, the fallback is returned.
At `raw = "!!!"`, `fallback = "custom"` the premises hold (stripping keeps
`"!!!"`, every character is outside `[A-Za-z0-9._-]`), yet
`sanitize_source_id` returns the constant `"default"`, not the fallback
`"custom"`. -/
theorem C7_counterexample :
    pyStrip "!!!" = "!!!" ∧ ("!!!" : String) ≠ "" ∧
    (("!!!" : String).data.all (fun c => !isAllowedSrcChar c)) = true ∧
    sanitize_source_id "!!!" "custom" = "default" ∧
    sanitize_source_id "!!!" "custom" ≠ "custom" := by
  refine ⟨by decide, by decide, by decide, by decide, by decide⟩

/-- C7 amended: for every raw input whose stripped text is non-blank but
consists entirely of characters outside `[A-Za-z0-9._-]`, and every
fallback `f`, `sanitize_source_id raw f` returns the constant `"default"`
(the fallback is only substituted at the earlier blank-input stage; the
claim's equality therefore holds exactly when `f = "default"`). -/
theorem C7_cleaned_empty_default (v f : String)
    (h1 : (pyStrip v).data ≠ [])
    (h2 : (pyStrip v).data.all (fun c => !isAllowedSrcChar c) = true) :
    sanitize_source_id v f = "default" := by
  unfold sanitize_source_id
  have hne : strIsEmpty (pyStrip v) = false := by
    unfold strIsEmpty
    simp [h1]
  rw [hne]
  simp only [Bool.false_eq_true, if_false]
  have hfil : (pyStrip v).data.filter isAllowedSrcChar = [] := by
    rw [List.filter_eq_nil_iff]
    intro a ha
    have h3 := List.all_eq_true.mp h2 a ha
    simp only [Bool.not_eq_true'] at h3
    simp [h3]
  rw [hfil]
  rfl

/-- C7 witness: the amended statement at the counterexample input. -/
theorem C7_witness :
    (pyStrip "!!!").data ≠ [] ∧ sanitize_source_id "!!!" "custom" = "default" :=
  ⟨by decide, C7_cleaned_empty_default "!!!" "custom" (by decide) (by decide)⟩

/-- C2 counterexample: the claim says `assert_sql_identifier` fails with
`InvalidIdentifier` on every name that does not match
`^[A-Za-z_][A-Za-z0-9_]*$`.  The name `" abc "` does not match (it has
spaces), yet `safe_ident` succeeds, returning the stripped string
`"abc"`. -/
theorem C2_counterexample :
    matchesSafeIdent " abc " = false ∧
    safe_ident " abc " = Except.ok "abc" ∧
    (" abc " : String) ≠ "abc" :=
  ⟨by decide, rfl, by decide⟩

/-- C2 amended: `safe_ident` first strips leading/trailing whitespace; it
succeeds returning the stripped name iff the stripped name matches
`^[A-Za-z_][A-Za-z0-9_]*$` and fails with `InvalidIdentifier` otherwise
(so a name that already matches is returned unchanged); in particular
`"sx_assets_2"` is accepted unchanged while `"sx;DROP SCHEMA public"`,
`"sx.bad"` and `"1abc"` all fail. -/
theorem C2_safe_ident (name : String) :
    (matchesSafeIdent (pyStrip name) = true → safe_ident name = Except.ok (pyStrip name)) ∧
    (matchesSafeIdent (pyStrip name) = false →
      safe_ident name = Except.error RepoErr.invalidIdentifier) ∧
    (matchesSafeIdent name = true → safe_ident name = Except.ok name) ∧
    safe_ident "sx_assets_2" = Except.ok "sx_assets_2" ∧
    safe_ident "sx;DROP SCHEMA public" = Except.error RepoErr.invalidIdentifier ∧
    safe_ident "sx.bad" = Except.error RepoErr.invalidIdentifier ∧
    safe_ident "1abc" = Except.error RepoErr.invalidIdentifier := by
  refine ⟨?_, ?_, ?_, rfl, rfl, rfl, rfl⟩
  · intro h
    unfold safe_ident
    rw [if_pos h]
  · intro h
    unfold safe_ident
    rw [if_neg (by simp [h])]
  · intro h
    exact safe_ident_of_matches h

/-- C2 witness: the amended statement applied at `" abc "`. -/
theorem C2_witness : safe_ident " abc " = Except.ok (pyStrip " abc ") :=
  (C2_safe_ident " abc ").1 (by decide)

/-- C9: every statement containing both `"sqlite_master"` and
`"videos_fts"`, executed through the compatibility shim with any
parameters, is short-circuited to a fake cursor whose `fetchone` yields
nothing and whose `fetchall` yields the empty list; no statement is
forwarded to the relational driver and no error is raised. -/
theorem C9_catalog_probe (sql : String) (params : ShimParams)
    (h1 : containsSub "sqlite_master" sql = true)
    (h2 : containsSub "videos_fts" sql = true) :
    CompatConnection.execute sql params = ExecOutcome.shortCircuit ⟨none, some []⟩ ∧
    FakeCursor.fetchone ⟨none, some []⟩ = none ∧
    FakeCursor.fetchall ⟨none, some []⟩ = [] ∧
    ∀ adapted q, CompatConnection.execute sql params ≠ ExecOutcome.forwarded adapted q := by
  have hmain : CompatConnection.execute sql params = ExecOutcome.shortCircuit ⟨none, some []⟩ := by
    unfold CompatConnection.execute
    rw [if_pos (by rw [h1, h2]; rfl)]
  refine ⟨hmain, rfl, rfl, ?_⟩
  intro adapted q hq
  rw [hmain] at hq
  simp at hq

/-- C9 witness: the concrete optional-FTS catalog probe of the embedded
store, with empty positional parameters. -/
theorem C9_witness :
    CompatConnection.execute
      "SELECT name FROM sqlite_master WHERE type='table' AND name='videos_fts'"
      (ShimParams.positional []) = ExecOutcome.shortCircuit ⟨none, some []⟩ :=
  (C9_catalog_probe _ _ (by decide) (by decide)).1

/-- The folded concatenation `prefix + "_" + sanitized` always matches the
safe-identifier grammar: the prefix is already a safe identifier and every
cleaned source character folds into `[A-Za-z0-9_]`. -/
theorem fold_concat_matches {pre sid : String}
    (hpre : matchesSafeIdent pre = true)
    (hsid : ∀ c ∈ sid.data, isAllowedSrcChar c = true) :
    matchesSafeIdent
      (String.mk ((pre.data ++ '_' :: sid.data).map PostgresRepository.foldSchemaChar)) = true := by
  unfold matchesSafeIdent at hpre ⊢
  cases hd : pre.data with
  | nil =>
    rw [hd] at hpre
    cases hpre
  | cons c cs =>
    rw [hd] at hpre
    simp only [Bool.and_eq_true] at hpre
    obtain ⟨hstart, hall⟩ := hpre
    simp only [List.cons_append, List.map_cons]
    rw [identStart_fold_eq hstart]
    simp only [hstart, Bool.true_and]
    rw [List.all_eq_true]
    intro d hdmem
    rcases List.mem_map.mp hdmem with ⟨e, hemem, rfl⟩
    rcases List.mem_append.mp hemem with he | he
    · have hi : isIdentChar e = true := List.all_eq_true.mp hall e he
      rw [identChar_fold_eq hi]
      exact hi
    · rcases List.mem_cons.mp he with rfl | he'
      · decide
      · exact allowed_fold_identChar (hsid e he')

/-- `schema_name_for_source` never fails when the configured prefix is a
valid identifier, and returns the folded `prefix_sanitized` name. -/
theorem schema_name_for_source_ok (st : Settings) (source_id pre : String)
    (hp : safe_ident (pyOrStr st.schema_pref "sx") = Except.ok pre) :
    PostgresRepository.schema_name_for_source st source_id =
      Except.ok (String.mk ((pre.data ++ '_' ::
        (sanitize_source_id source_id st.default_source_id).data).map
        PostgresRepository.foldSchemaChar)) := by
  unfold PostgresRepository.schema_name_for_source
  rw [hp]
  exact safe_ident_of_matches
    (fold_concat_matches (safe_ident_ok_inv hp).2 (fun _ hc => mem_sanitize_allowed hc))

/-- C6: for every source id and every settings whose configured prefix is
a valid SQL identifier, `schema_name_for_source` succeeds and equals the
prefix, `"_"`, and the normalized source id concatenated with `.`/`-`
folded to `_`; the result always passes the safe-identifier gate; and the
derivation is a pure function — in particular
`schema_name_for_source "assets_2"` with prefix `"sx"` is
`"sx_assets_2"`. -/
theorem C6_derive_schema_name (st : Settings) (source_id pre : String)
    (hp : safe_ident (pyOrStr st.schema_pref "sx") = Except.ok pre) :
    PostgresRepository.schema_name_for_source st source_id =
      Except.ok (String.mk ((pre.data ++ '_' ::
        (sanitize_source_id source_id st.default_source_id).data).map
        PostgresRepository.foldSchemaChar)) ∧
    matchesSafeIdent (String.mk ((pre.data ++ '_' ::
        (sanitize_source_id source_id st.default_source_id).data).map
        PostgresRepository.foldSchemaChar)) = true ∧
    PostgresRepository.schema_name_for_source
      ⟨"default", "sx", "sx_source_registry", true, ""⟩ "assets_2" =
      Except.ok "sx_assets_2" :=
  ⟨schema_name_for_source_ok st source_id pre hp,
   fold_concat_matches (safe_ident_ok_inv hp).2 (fun _ hc => mem_sanitize_allowed hc),
   rfl⟩

/-- C6 witness: the derivation at prefix `"sx"` and source id
`"assets_2"`. -/
theorem C6_witness :
    PostgresRepository.schema_name_for_source
      ⟨"default", "sx", "sx_source_registry", true, ""⟩ "assets_2" =
      Except.ok (String.mk ((("sx" : String).data ++ '_' ::
        (sanitize_source_id "assets_2" "default").data).map
        PostgresRepository.foldSchemaChar)) :=
  (C6_derive_schema_name ⟨"default", "sx", "sx_source_registry", true, ""⟩
    "assets_2" "sx" rfl).1

/-- When the sanitized source id yields trailing index `n`, the schema
name carries token index `m`, and `n ≠ m`, the guard always raises:
either against the configured profile index or against the expected
index derived from the source id. -/
theorem guard_mismatch (st : Settings) (source_id schema_name s' : String) (n m : Nat)
    (hg : st.schema_index_guard = true)
    (hsi : safe_ident schema_name = Except.ok s')
    (hm : extractSchemaProfileIndex s' = some m)
    (hn : extractTrailingProfileIndex (sanitize_source_id source_id st.default_source_id) = some n)
    (hne : n ≠ m) :
    PostgresRepository.assert_schema_index_guard st source_id schema_name =
      Except.error RepoErr.schemaIndexMismatch := by
  have hmn : ¬ m = n := fun hh => hne hh.symm
  simp only [PostgresRepository.assert_schema_index_guard, hg, hsi, hm, hn]
  cases hq : extractTrailingProfileIndex st.profile_index with
  | none => simp [hq, hmn]
  | some p =>
    by_cases hp : n = p
    · subst hp
      simp [hq, hmn]
    · simp [hq, hp, hmn]

/-- C3: with the guard enabled, whenever the sanitized source id carries a
trailing numeric suffix `n`, the schema name carries an embedded `pNN`
token `m`, and `n ≠ m`, `_assert_schema_index_guard` fails with
`SchemaIndexMismatch`; and `resolve_schema` on a registry that maps the
source id to that schema fails the same way instead of returning a schema
(in particular source id `"assets-2"` against a `"p01"` schema). -/
theorem C3_profile_guard (st : Settings) (source_id schema_name s' : String) (n m : Nat)
    (hg : st.schema_index_guard = true)
    (hsi : safe_ident schema_name = Except.ok s')
    (hm : extractSchemaProfileIndex s' = some m)
    (hn : extractTrailingProfileIndex (sanitize_source_id source_id st.default_source_id) = some n)
    (hne : n ≠ m) :
    PostgresRepository.assert_schema_index_guard st source_id schema_name =
      Except.error RepoErr.schemaIndexMismatch ∧
    ∀ (pg : PgState) (row : RegEntry) (canonical now : String),
      keyFind RegEntry.source_id (sanitize_source_id source_id st.default_source_id)
        pg.registry = some row →
      row.schema_name = schema_name →
      strIsEmpty schema_name = false →
      PostgresRepository.schema_name_for_source st
        (sanitize_source_id source_id st.default_source_id) = Except.ok canonical →
      (PostgresRepository.resolve_schema st pg source_id false now).2 =
        Except.error RepoErr.schemaIndexMismatch := by
  refine ⟨guard_mismatch st source_id schema_name s' n m hg hsi hm hn hne, ?_⟩
  intro pg row canonical now hrow hname hnonempty hcan
  have hs'm : matchesSafeIdent s' = true := (safe_ident_ok_inv hsi).2
  have hguard : PostgresRepository.assert_schema_index_guard st
      (sanitize_source_id source_id st.default_source_id) s' =
      Except.error RepoErr.schemaIndexMismatch := by
    refine guard_mismatch st _ s' s' n m hg (safe_ident_of_matches hs'm) hm ?_ hne
    rw [sanitize_idem]
    exact hn
  simp only [PostgresRepository.resolve_schema, hcan, hrow, hname, hnonempty,
    PostgresRepository.resolve_schema_mapped, hsi, Bool.false_eq_true, if_false,
    Bool.if_false_left, hguard]

/-- C3 witness: source id `"assets-2"` (trailing index 2) against schema
`"sx_p01_assets_1"` (token `p01`, index 1). -/
theorem C3_witness :
    PostgresRepository.assert_schema_index_guard
      ⟨"default", "sx", "sx_source_registry", true, ""⟩ "assets-2" "sx_p01_assets_1" =
      Except.error RepoErr.schemaIndexMismatch :=
  (C3_profile_guard ⟨"default", "sx", "sx_source_registry", true, ""⟩
    "assets-2" "sx_p01_assets_1" "sx_p01_assets_1" 2 1
    rfl rfl (by decide) (by decide) (by decide)).1

/-- C5: for a source id with no registry entry, `resolve_schema` with
`create_if_missing = false` fails with `SchemaNotMapped`, and the failed
call inserts no registry row, registers no source, and provisions no
tenant schema — registry, sources and schema catalog are unchanged. -/
theorem C5_missing_mapping (st : Settings) (pg : PgState) (source_id now canonical : String)
    (hnone : keyFind RegEntry.source_id (sanitize_source_id source_id st.default_source_id)
      pg.registry = none)
    (hcan : PostgresRepository.schema_name_for_source st
      (sanitize_source_id source_id st.default_source_id) = Except.ok canonical) :
    (PostgresRepository.resolve_schema st pg source_id false now).2 =
      Except.error RepoErr.schemaNotMapped ∧
    (PostgresRepository.resolve_schema st pg source_id false now).1.registry = pg.registry ∧
    (PostgresRepository.resolve_schema st pg source_id false now).1.sources = pg.sources ∧
    (PostgresRepository.resolve_schema st pg source_id false now).1.schemas = pg.schemas := by
  simp only [PostgresRepository.resolve_schema, hcan, hnone,
    PostgresRepository.resolve_schema_missing]
  simp

/-- C5 witness: `resolve("never-seen", false)` on an empty registry. -/
theorem C5_witness :
    (PostgresRepository.resolve_schema ⟨"default", "sx", "sx_source_registry", true, ""⟩
      ⟨false, [], [], []⟩ "never-seen" false "t0").2 =
      Except.error RepoErr.schemaNotMapped ∧
    (PostgresRepository.resolve_schema ⟨"default", "sx", "sx_source_registry", true, ""⟩
      ⟨false, [], [], []⟩ "never-seen" false "t0").1.registry = [] := by
  have h := C5_missing_mapping ⟨"default", "sx", "sx_source_registry", true, ""⟩
    ⟨false, [], [], []⟩ "never-seen" "t0" "sx_never_seen" rfl rfl
  exact ⟨h.1, h.2.1⟩

/-- C1 counterexample: the claim quantifies over every item id `d`.  At
`d = " x "` the two writes succeed — `write_item` strips the payload id
and stores `"x"` — but `get_item` does not strip its `item_id` argument,
so `get_item(S1, " x ")` finds no row at all instead of a row with
caption `"a"`. -/
theorem C1_counterexample :
    sanitize_source_id "s1" "default" ≠ sanitize_source_id "s2" "default" ∧
    SqliteRepository.write_item ⟨"default", "sx", "sx_source_registry", true, ""⟩
      ⟨[], []⟩ "s1" ⟨some " x ", none, some "a", none⟩ "t1" =
      Except.ok (⟨[⟨"s1", "x", "tiktok", "a", 0, "t1"⟩], []⟩, ⟨true, "x", "s1", "t1"⟩) ∧
    SqliteRepository.write_item ⟨"default", "sx", "sx_source_registry", true, ""⟩
      ⟨[⟨"s1", "x", "tiktok", "a", 0, "t1"⟩], []⟩ "s2" ⟨some " x ", none, some "b", none⟩ "t2" =
      Except.ok (⟨[⟨"s1", "x", "tiktok", "a", 0, "t1"⟩, ⟨"s2", "x", "tiktok", "b", 0, "t2"⟩], []⟩,
        ⟨true, "x", "s2", "t2"⟩) ∧
    SqliteRepository.get_item ⟨"default", "sx", "sx_source_registry", true, ""⟩
      ⟨[⟨"s1", "x", "tiktok", "a", 0, "t1"⟩, ⟨"s2", "x", "tiktok", "b", 0, "t2"⟩], []⟩
      "s1" " x " = none :=
  ⟨by decide, rfl, rfl, rfl⟩

/-- Two upserts under different keys, read back: the first key still
holds the first row's caption, the second key holds the second's. -/
theorem upsert2_find (tbl : List VideoRow) (rowA rowB : VideoRow) (k1 k2 : String × String)
    (hA : videoKey rowA = k1) (hB : videoKey rowB = k2) (hne : k1 ≠ k2) :
    (keyFind videoKey k1 (keyUpsert videoKey k2 (videoUpd rowB) rowB
        (keyUpsert videoKey k1 (videoUpd rowA) rowA tbl))).map VideoRow.caption =
      some rowA.caption ∧
    (keyFind videoKey k2 (keyUpsert videoKey k2 (videoUpd rowB) rowB
        (keyUpsert videoKey k1 (videoUpd rowA) rowA tbl))).map VideoRow.caption =
      some rowB.caption := by
  constructor
  · rw [keyFind_keyUpsert_ne videoKey (videoUpd rowB) rowB _ (fun _ => rfl) hB hne]
    obtain ⟨r, hf, hc⟩ := keyFind_keyUpsert_pred videoKey k1 (videoUpd rowA) rowA tbl
      (fun _ => rfl) hA (fun r => r.caption = rowA.caption) rfl (fun _ => rfl)
    rw [hf]
    simp [hc]
  · obtain ⟨r, hf, hc⟩ := keyFind_keyUpsert_pred videoKey k2 (videoUpd rowB) rowB
      (keyUpsert videoKey k1 (videoUpd rowA) rowA tbl)
      (fun _ => rfl) hB (fun r => r.caption = rowB.caption) rfl (fun _ => rfl)
    rw [hf]
    simp [hc]

/-- C1 amended: cross-tenant isolation holds for every item id that is
non-blank and free of surrounding whitespace (the form the
counterexample forces: `write_item` strips the id, `get_item` does not).
For sources whose normalized forms differ, writing `{id: d, caption: a}`
as `S1` and then `{id: d, caption: b}` as `S2` leaves `get_item(S1, d)`
with caption `a` and `get_item(S2, d)` with caption `b`. -/
theorem C1_isolation (st : Settings) (db db1 db2 : SqliteDb)
    (S1 S2 d a b now1 now2 : String) (r1 r2 : WriteResp)
    (hS : sanitize_source_id S1 st.default_source_id ≠
          sanitize_source_id S2 st.default_source_id)
    (hd1 : pyStrip d = d) (hd2 : d ≠ "")
    (hw1 : SqliteRepository.write_item st db S1 ⟨some d, none, some a, none⟩ now1 =
      Except.ok (db1, r1))
    (hw2 : SqliteRepository.write_item st db1 S2 ⟨some d, none, some b, none⟩ now2 =
      Except.ok (db2, r2)) :
    (SqliteRepository.get_item st db2 S1 d).map VideoRow.caption = some a ∧
    (SqliteRepository.get_item st db2 S2 d).map VideoRow.caption = some b := by
  have hde : strIsEmpty d = false := by
    cases hq : strIsEmpty d with
    | false => rfl
    | true => exact absurd (strIsEmpty_eq_empty hq) hd2
  simp only [SqliteRepository.write_item, pyGetOr_some_self, hd1, hde,
    Bool.false_eq_true, if_false, Except.ok.injEq, Prod.mk.injEq] at hw1 hw2
  obtain ⟨hdb1, hr1⟩ := hw1
  obtain ⟨hdb2, hr2⟩ := hw2
  subst hdb1
  subst hdb2
  have hne12 : ((sanitize_source_id S1 st.default_source_id, d) : String × String) ≠
      (sanitize_source_id S2 st.default_source_id, d) := by
    intro hh
    exact hS (congrArg Prod.fst hh)
  have h2 := upsert2_find db.videos
    ⟨sanitize_source_id S1 st.default_source_id, d, pyGetOr none "tiktok", a,
      pyGetOrInt none, now1⟩
    ⟨sanitize_source_id S2 st.default_source_id, d, pyGetOr none "tiktok", b,
      pyGetOrInt none, now2⟩
    (sanitize_source_id S1 st.default_source_id, d)
    (sanitize_source_id S2 st.default_source_id, d) rfl rfl hne12
  simpa only [SqliteRepository.get_item] using h2

/-- C1 witness: the amended isolation statement run on the spec's own
example — sources `"s1"`/`"s2"`, item id `"dup"`. -/
theorem C1_witness :
    (SqliteRepository.get_item ⟨"default", "sx", "sx_source_registry", true, ""⟩
      ⟨[⟨"s1", "dup", "tiktok", "a", 0, "t1"⟩, ⟨"s2", "dup", "tiktok", "b", 0, "t2"⟩], []⟩
      "s1" "dup").map VideoRow.caption = some "a" ∧
    (SqliteRepository.get_item ⟨"default", "sx", "sx_source_registry", true, ""⟩
      ⟨[⟨"s1", "dup", "tiktok", "a", 0, "t1"⟩, ⟨"s2", "dup", "tiktok", "b", 0, "t2"⟩], []⟩
      "s2" "dup").map VideoRow.caption = some "b" :=
  C1_isolation ⟨"default", "sx", "sx_source_registry", true, ""⟩ ⟨[], []⟩
    ⟨[⟨"s1", "dup", "tiktok", "a", 0, "t1"⟩], []⟩
    ⟨[⟨"s1", "dup", "tiktok", "a", 0, "t1"⟩, ⟨"s2", "dup", "tiktok", "b", 0, "t2"⟩], []⟩
    "s1" "s2" "dup" "a" "b" "t1" "t2" ⟨true, "dup", "s1", "t1"⟩ ⟨true, "dup", "s2", "t2"⟩
    (by decide) (by decide) (by decide) rfl rfl

/-- A schema name produced by `schema_name_for_source` matches the
safe-identifier grammar. -/
theorem schema_name_ok_matches {st : Settings} {x c : String}
    (h : PostgresRepository.schema_name_for_source st x = Except.ok c) :
    matchesSafeIdent c = true := by
  unfold PostgresRepository.schema_name_for_source at h
  cases hp : safe_ident (pyOrStr st.schema_pref "sx") with
  | error e =>
    rw [hp] at h
    cases h
  | ok pre =>
    simp only [hp] at h
    exact (safe_ident_ok_inv h).2

/-- `_create_schema_objects` on a grammar-valid schema name: ensure every
canonical table at that catalog key. -/
theorem create_schema_objects_ok (schemas : List (String × List TableDef)) (schema : String)
    (hm : matchesSafeIdent schema = true) :
    PostgresRepository.create_schema_objects schemas schema =
      Except.ok (keyUpsert Prod.fst schema
        (fun p => (p.1, canonicalTables.foldl ensureTable
          (((keyFind Prod.fst schema schemas).map Prod.snd).getD [])))
        (schema, canonicalTables.foldl ensureTable
          (((keyFind Prod.fst schema schemas).map Prod.snd).getD []))
        schemas) := by
  unfold PostgresRepository.create_schema_objects
  rw [safe_ident_of_matches hm]

set_option maxHeartbeats 4000000 in
/-- C4: with a registry mapping present and `create_if_missing = true` —
when the mapped schema fails the structural probe, `resolve_schema`
rewrites that source's registry row to the canonical derived name,
provisions the canonical schema's tables, and returns the canonical name,
leaving the foreign schema's catalog entry untouched and other registry
rows unchanged; when the probe passes, the registry is unchanged, the
mapped schema's tables are idempotently ensured, other schemas are
untouched, and the mapped name is returned. -/
theorem C4_legacy_remap (st : Settings) (pg : PgState) (source_id now : String)
    (row : RegEntry) (m canonical : String)
    (hrow : keyFind RegEntry.source_id (sanitize_source_id source_id st.default_source_id)
      pg.registry = some row)
    (hname : row.schema_name = m)
    (hm0 : strIsEmpty m = false)
    (hmid : safe_ident m = Except.ok m)
    (hcan : PostgresRepository.schema_name_for_source st
      (sanitize_source_id source_id st.default_source_id) = Except.ok canonical) :
    (PostgresRepository.schema_has_required_layout pg.schemas m = Except.ok false →
      PostgresRepository.assert_schema_index_guard st
        (sanitize_source_id source_id st.default_source_id) canonical = Except.ok () →
      m ≠ canonical →
      ∃ pg',
        PostgresRepository.resolve_schema st pg source_id true now =
          (pg', Except.ok canonical) ∧
        (keyFind RegEntry.source_id (sanitize_source_id source_id st.default_source_id)
          pg'.registry).map RegEntry.schema_name = some canonical ∧
        (∀ s', s' ≠ sanitize_source_id source_id st.default_source_id →
          keyFind RegEntry.source_id s' pg'.registry =
            keyFind RegEntry.source_id s' pg.registry) ∧
        keyFind Prod.fst m pg'.schemas = keyFind Prod.fst m pg.schemas ∧
        (∀ t ∈ canonicalTables,
          (((keyFind Prod.fst canonical pg'.schemas).map Prod.snd).getD []).any
            (fun u => decide (u.name = t.name)) = true) ∧
        pg'.sources = pg.sources) ∧
    (PostgresRepository.schema_has_required_layout pg.schemas m = Except.ok true →
      PostgresRepository.assert_schema_index_guard st
        (sanitize_source_id source_id st.default_source_id) m = Except.ok () →
      ∃ pg',
        PostgresRepository.resolve_schema st pg source_id true now = (pg', Except.ok m) ∧
        pg'.registry = pg.registry ∧
        (∀ s', s' ≠ m → keyFind Prod.fst s' pg'.schemas = keyFind Prod.fst s' pg.schemas) ∧
        (∀ t ∈ canonicalTables,
          (((keyFind Prod.fst m pg'.schemas).map Prod.snd).getD []).any
            (fun u => decide (u.name = t.name)) = true) ∧
        pg'.sources = pg.sources) := by
  have hres : PostgresRepository.resolve_schema st pg source_id true now =
      PostgresRepository.resolve_schema_mapped st { pg with globals_ready := true }
        (sanitize_source_id source_id st.default_source_id) canonical m true now := by
    simp only [PostgresRepository.resolve_schema, hcan, hrow, hname, hm0,
      Bool.false_eq_true, if_false]
  constructor
  · intro hprobe hguard hnc
    have hmc : matchesSafeIdent canonical = true := schema_name_ok_matches hcan
    set T := canonicalTables.foldl ensureTable
      (((keyFind Prod.fst canonical pg.schemas).map Prod.snd).getD []) with hTT
    have hcso : PostgresRepository.create_schema_objects pg.schemas canonical =
        Except.ok (keyUpsert Prod.fst canonical (fun p => (p.1, T)) (canonical, T) pg.schemas) := by
      rw [hTT]
      exact create_schema_objects_ok pg.schemas canonical hmc
    have hfull : PostgresRepository.resolve_schema st pg source_id true now =
        ({ globals_ready := true,
           registry := keyUpd RegEntry.source_id
             (sanitize_source_id source_id st.default_source_id)
             (fun r => { r with schema_name := canonical, updated_at := now }) pg.registry,
           sources := pg.sources,
           schemas := keyUpsert Prod.fst canonical (fun p => (p.1, T)) (canonical, T) pg.schemas },
         Except.ok canonical) := by
      rw [hres]
      simp only [PostgresRepository.resolve_schema_mapped, PostgresRepository.registryRemap,
        hmid, if_pos, hprobe, hcso, hguard]
    refine ⟨_, hfull, ?_, ?_, ?_, ?_, rfl⟩
    · show (keyFind RegEntry.source_id (sanitize_source_id source_id st.default_source_id)
        (keyUpd RegEntry.source_id (sanitize_source_id source_id st.default_source_id)
          (fun r => { r with schema_name := canonical, updated_at := now })
          pg.registry)).map RegEntry.schema_name = some canonical
      rw [keyFind_keyUpd_same RegEntry.source_id
        (sanitize_source_id source_id st.default_source_id)
        (fun r => { r with schema_name := canonical, updated_at := now })
        pg.registry (fun _ => rfl), hrow]
      rfl
    · intro s' hs'
      show keyFind RegEntry.source_id s'
        (keyUpd RegEntry.source_id (sanitize_source_id source_id st.default_source_id)
          (fun r => { r with schema_name := canonical, updated_at := now })
          pg.registry) = keyFind RegEntry.source_id s' pg.registry
      exact keyFind_keyUpd_ne RegEntry.source_id
        (fun r => { r with schema_name := canonical, updated_at := now })
        pg.registry (fun _ => rfl) hs'
    · show keyFind Prod.fst m
        (keyUpsert Prod.fst canonical (fun p => (p.1, T)) (canonical, T) pg.schemas) =
        keyFind Prod.fst m pg.schemas
      exact keyFind_keyUpsert_ne Prod.fst (fun p => (p.1, T)) (canonical, T)
        pg.schemas (fun _ => rfl) rfl hnc
    · intro t ht
      obtain ⟨r, hr, hP⟩ := keyFind_keyUpsert_pred Prod.fst canonical
        (fun p => (p.1, T)) (canonical, T) pg.schemas (fun _ => rfl) rfl
        (fun p => p.2 = T) rfl (fun _ => rfl)
      show (((keyFind Prod.fst canonical
        (keyUpsert Prod.fst canonical (fun p => (p.1, T)) (canonical, T)
          pg.schemas)).map Prod.snd).getD []).any (fun u => decide (u.name = t.name)) = true
      rw [hr]
      simp only [Option.map, Option.getD]
      rw [hP, hTT]
      exact foldl_ensureTable_present canonicalTables _ t ht
  · intro hprobe hguard
    have hmm : matchesSafeIdent m = true := (safe_ident_ok_inv hmid).2
    set T := canonicalTables.foldl ensureTable
      (((keyFind Prod.fst m pg.schemas).map Prod.snd).getD []) with hTT
    have hcso : PostgresRepository.create_schema_objects pg.schemas m =
        Except.ok (keyUpsert Prod.fst m (fun p => (p.1, T)) (m, T) pg.schemas) := by
      rw [hTT]
      exact create_schema_objects_ok pg.schemas m hmm
    have hfull : PostgresRepository.resolve_schema st pg source_id true now =
        ({ globals_ready := true,
           registry := pg.registry,
           sources := pg.sources,
           schemas := keyUpsert Prod.fst m (fun p => (p.1, T)) (m, T) pg.schemas },
         Except.ok m) := by
      rw [hres]
      simp only [PostgresRepository.resolve_schema_mapped, hmid, if_pos, hprobe, hcso, hguard,
        Bool.true_eq_false, if_false]
    refine ⟨_, hfull, rfl, ?_, ?_, rfl⟩
    · intro s' hs'
      show keyFind Prod.fst s'
        (keyUpsert Prod.fst m (fun p => (p.1, T)) (m, T) pg.schemas) =
        keyFind Prod.fst s' pg.schemas
      exact keyFind_keyUpsert_ne Prod.fst (fun p => (p.1, T)) (m, T)
        pg.schemas (fun _ => rfl) rfl hs'
    · intro t ht
      obtain ⟨r, hr, hP⟩ := keyFind_keyUpsert_pred Prod.fst m
        (fun p => (p.1, T)) (m, T) pg.schemas (fun _ => rfl) rfl
        (fun p => p.2 = T) rfl (fun _ => rfl)
      show (((keyFind Prod.fst m
        (keyUpsert Prod.fst m (fun p => (p.1, T)) (m, T)
          pg.schemas)).map Prod.snd).getD []).any (fun u => decide (u.name = t.name)) = true
      rw [hr]
      simp only [Option.map, Option.getD]
      rw [hP, hTT]
      exact foldl_ensureTable_present canonicalTables _ t ht

/-- C4 witness: a registry mapping `assets_2 → legacy_shared` whose
`videos` table lacks the required columns is remapped to `sx_assets_2`,
which is provisioned, while the `legacy_shared` catalog entry is left
untouched. -/
theorem C4_witness :
    ∃ pg',
      PostgresRepository.resolve_schema ⟨"default", "sx", "sx_source_registry", true, ""⟩
        ⟨false, [⟨"assets_2", "legacy_shared", "t0", "t0"⟩], [],
         [("legacy_shared", [⟨"videos", ["a", "b"]⟩])]⟩ "assets_2" true "t1" =
        (pg', Except.ok "sx_assets_2") ∧
      (keyFind RegEntry.source_id (sanitize_source_id "assets_2" "default")
        pg'.registry).map RegEntry.schema_name = some "sx_assets_2" ∧
      (∀ s', s' ≠ sanitize_source_id "assets_2" "default" →
        keyFind RegEntry.source_id s' pg'.registry =
          keyFind RegEntry.source_id s'
            (PgState.registry ⟨false, [⟨"assets_2", "legacy_shared", "t0", "t0"⟩], [],
              [("legacy_shared", [⟨"videos", ["a", "b"]⟩])]⟩)) ∧
      keyFind Prod.fst "legacy_shared" pg'.schemas =
        keyFind Prod.fst "legacy_shared"
          (PgState.schemas ⟨false, [⟨"assets_2", "legacy_shared", "t0", "t0"⟩], [],
            [("legacy_shared", [⟨"videos", ["a", "b"]⟩])]⟩) ∧
      (∀ t ∈ canonicalTables,
        (((keyFind Prod.fst "sx_assets_2" pg'.schemas).map Prod.snd).getD []).any
          (fun u => decide (u.name = t.name)) = true) ∧
      pg'.sources = PgState.sources ⟨false, [⟨"assets_2", "legacy_shared", "t0", "t0"⟩], [],
        [("legacy_shared", [⟨"videos", ["a", "b"]⟩])]⟩ :=
  (C4_legacy_remap ⟨"default", "sx", "sx_source_registry", true, ""⟩
    ⟨false, [⟨"assets_2", "legacy_shared", "t0", "t0"⟩], [],
     [("legacy_shared", [⟨"videos", ["a", "b"]⟩])]⟩ "assets_2" "t1"
    ⟨"assets_2", "legacy_shared", "t0", "t0"⟩ "legacy_shared" "sx_assets_2"
    rfl rfl rfl rfl rfl).1 rfl rfl (by decide)

/-- C10 (implicit invariant): `sanitize_source_id` always yields a
non-empty string over `[A-Za-z0-9._-]`, and every repository operation
that takes a `source_id` consults only its sanitized form — two raw
inputs with the same normalized form address exactly the same tenant
state on both backends, so an unnormalized id never reaches query text or
identifier derivation. -/
theorem C10_tenant_normalization :
    (∀ v f, sanitize_source_id v f ≠ "" ∧
      ∀ c ∈ (sanitize_source_id v f).data, isAllowedSrcChar c = true) ∧
    (∀ (st : Settings) (db : SqliteDb) (r1 r2 : String),
      sanitize_source_id r1 st.default_source_id = sanitize_source_id r2 st.default_source_id →
      (∀ item, SqliteRepository.get_item st db r1 item =
        SqliteRepository.get_item st db r2 item) ∧
      (∀ pl now, SqliteRepository.write_item st db r1 pl now =
        SqliteRepository.write_item st db r2 pl now) ∧
      (∀ lim off, SqliteRepository.list_items st db r1 lim off =
        SqliteRepository.list_items st db r2 lim off) ∧
      (∀ now, SqliteRepository.init_schema st db r1 now =
        SqliteRepository.init_schema st db r2 now) ∧
      (∀ now, SqliteRepository.get_health st db r1 now =
        SqliteRepository.get_health st db r2 now)) ∧
    (∀ (st : Settings) (pg : PgState) (r1 r2 : String),
      sanitize_source_id r1 st.default_source_id = sanitize_source_id r2 st.default_source_id →
      (∀ c now, PostgresRepository.resolve_schema st pg r1 c now =
        PostgresRepository.resolve_schema st pg r2 c now) ∧
      (∀ now, PostgresRepository.connection_for_source st pg r1 now =
        PostgresRepository.connection_for_source st pg r2 now) ∧
      (∀ now, PostgresRepository.init_schema st pg r1 now =
        PostgresRepository.init_schema st pg r2 now) ∧
      (∀ now, PostgresRepository.get_health st pg r1 now =
        PostgresRepository.get_health st pg r2 now) ∧
      (∀ schema, PostgresRepository.assert_schema_index_guard st r1 schema =
        PostgresRepository.assert_schema_index_guard st r2 schema) ∧
      PostgresRepository.schema_name_for_source st r1 =
        PostgresRepository.schema_name_for_source st r2) := by
  refine ⟨fun v f => ⟨str_ne_of_data_ne (sanitize_ne_empty v f),
    fun _ hc => mem_sanitize_allowed hc⟩, ?_, ?_⟩
  · intro st db r1 r2 h
    refine ⟨?_, ?_, ?_, ?_, ?_⟩
    · intro item
      simp only [SqliteRepository.get_item]
      rw [h]
    · intro pl now
      simp only [SqliteRepository.write_item]
      rw [h]
    · intro lim off
      simp only [SqliteRepository.list_items]
      rw [h]
    · intro now
      simp only [SqliteRepository.init_schema]
      rw [h]
    · intro now
      simp only [SqliteRepository.get_health]
      rw [h]
  · intro st pg r1 r2 h
    refine ⟨?_, ?_, ?_, ?_, ?_, ?_⟩
    · intro c now
      simp only [PostgresRepository.resolve_schema]
      rw [h]
    · intro now
      simp only [PostgresRepository.connection_for_source, PostgresRepository.resolve_schema]
      rw [h]
    · intro now
      simp only [PostgresRepository.init_schema, PostgresRepository.resolve_schema]
      rw [h]
    · intro now
      simp only [PostgresRepository.get_health, PostgresRepository.resolve_schema]
      rw [h]
    · intro schema
      simp only [PostgresRepository.assert_schema_index_guard]
      rw [h]
    · simp only [PostgresRepository.schema_name_for_source]
      rw [h]

/-- C10 witness: the raw inputs `" assets_1 "` and `"assets_1"` normalize
identically and address the same data. -/
theorem C10_witness :
    sanitize_source_id " assets_1 " "default" = sanitize_source_id "assets_1" "default" ∧
    SqliteRepository.get_item ⟨"default", "sx", "sx_source_registry", true, ""⟩ ⟨[], []⟩
      " assets_1 " "i" =
    SqliteRepository.get_item ⟨"default", "sx", "sx_source_registry", true, ""⟩ ⟨[], []⟩
      "assets_1" "i" :=
  ⟨by decide,
   (C10_tenant_normalization.2.1 ⟨"default", "sx", "sx_source_registry", true, ""⟩ ⟨[], []⟩
     " assets_1 " "assets_1" (by decide)).1 "i"⟩
